import Mathlib

/-!
Shallow embedding of the candidate-discovery and full-sync query helpers of
`pkg/syncer/util.go` from the vSphere CSI driver, together with proofs about
the properties of those helpers.

Modelling conventions:
* Go `error` values are modelled by an arbitrary error type `E` (instantiated
  with `String` in concrete computations); a Go function returning
  `(T, error)` becomes a Lean function returning `Except E T`.
* Go `nil` pointers become `Option.none`.
* Go maps over strings become association lists with Go-map insert
  (overwrite) semantics; a Go map read `m[k]` of a missing key yields `""`,
  modelled by `lookupAnnD`.
* The Kubernetes listers of the `metadataSyncInformer` are modelled by the
  results they return on the calls the code makes (a full list, or a get
  keyed by name/namespace).
* The paginated query loop of `fullSyncGetQueryResults` is a `for {}` loop
  in Go and is embedded fuel-indexed: `none` means the fuel ran out before
  the loop finished, `some r` means the loop finished with result `r`.  The
  embedding additionally counts backend calls.
-/

namespace VSphereCSI

deriving instance DecidableEq for Except

/-- String constant `csitypes.Name`, the CSI driver name.  The defining
package `pkg/csi/types` is outside the provided sources; the value is taken
from the repository documentation (`csi.vsphere.vmware.com`).  No proof below
depends on the concrete value. -/
def csitypesName : String := "csi.vsphere.vmware.com"

/-- String constant `common.CSIMigration`, the feature-switch name for the
in-tree to CSI migration feature.  Defined outside the provided sources; no
proof below depends on the concrete value. -/
def CSIMigration : String := "csi-migration"

/-- String constant `common.AnnMigratedTo` (the migrated-to annotation key).
Defined outside the provided sources; no proof below depends on the value. -/
def AnnMigratedTo : String := "pv.kubernetes.io/migrated-to"

/-- String constant `common.AnnStorageProvisioner` (the storage-provisioner
annotation key on claims).  Defined outside the provided sources. -/
def AnnStorageProvisioner : String := "volume.beta.kubernetes.io/storage-provisioner"

/-- String constant `common.AnnDynamicallyProvisioned` (the
dynamically-provisioned-by annotation key on volumes).  Defined outside the
provided sources. -/
def AnnDynamicallyProvisioned : String := "pv.kubernetes.io/provisioned-by"

/-- String constant `common.InTreePluginName`, the legacy in-tree vSphere
plugin name.  Defined outside the provided sources. -/
def InTreePluginName : String := "kubernetes.io/vsphere-volume"

/-- PVC annotation key to specify storage class from which PV should be
provisioned (`scNameAnnotationKey` in `pkg/syncer/util.go`). -/
def scNameAnnotationKey : String := "volume.beta.kubernetes.io/storage-class"

/-- Association-list lookup modelling the Go comma-ok map read
`v, ok := m[k]`: `some v` when the key is present, `none` otherwise. -/
def lookupAnn (m : List (String × String)) (k : String) : Option String :=
  match m.find? (fun p => p.1 == k) with
  | some p => some p.2
  | none => none

/-- Go map read `m[k]` without the comma-ok form: a missing key yields the
zero value `""`. -/
def lookupAnnD (m : List (String × String)) (k : String) : String :=
  (lookupAnn m k).getD ""

/-- Go map insert `m[k] = v`: overwrite the binding when the key is present,
otherwise add it. -/
def mapInsert (m : List (String × String)) (k v : String) : List (String × String) :=
  if m.any (fun p => p.1 == k) then
    m.map (fun p => if p.1 == k then (k, v) else p)
  else
    m ++ [(k, v)]

/-- Cursor of the CNS pagination protocol (`cnstypes.CnsCursor`): offset,
limit and total record count, all `int64` in Go, modelled as `Int`. -/
structure CnsCursor where
  offset : Int
  limit : Int
  totalRecords : Int
deriving DecidableEq

/-- Volume identifier of the CNS catalog (`cnstypes.CnsVolumeId`). -/
structure CnsVolumeId where
  id : String
deriving DecidableEq

/-- Volume record of the CNS catalog (`cnstypes.CnsVolume`).  Only the
identifier field is modelled; `fullSyncGetQueryResults` treats records
opaquely. -/
structure CnsVolume where
  volumeId : CnsVolumeId
deriving DecidableEq

/-- Result page of a CNS `QueryVolume` call (`cnstypes.CnsQueryResult`):
a list of volume records plus the server-assigned cursor. -/
structure CnsQueryResult where
  volumes : List CnsVolume
  cursor : CnsCursor
deriving DecidableEq

/-- Query filter of a CNS `QueryVolume` call (`cnstypes.CnsQueryFilter`).
Only the fields `fullSyncGetQueryResults` reads or writes are modelled:
the volume-id scope, the container-cluster scope and the (pointer-valued,
hence `Option`) cursor. -/
structure CnsQueryFilter where
  volumeIds : List CnsVolumeId
  containerClusterIds : List String
  cursor : Option CnsCursor
deriving DecidableEq

/-- Type of the backend catalog (`volumes.Manager.QueryVolume`): a query
filter is answered with an error, or a possibly-nil result page. -/
def QueryVolumeBackend (E : Type) : Type :=
  CnsQueryFilter → Except E (Option CnsQueryResult)

/-- Cursor advance performed at the bottom of the pagination loop
(`queryFilter.Cursor = &queryResult.Cursor`). -/
def advanceCursor (queryFilter : CnsQueryFilter) (queryResult : CnsQueryResult) :
    CnsQueryFilter :=
  { queryFilter with cursor := some queryResult.cursor }

/-- Fuel-indexed embedding of the `for {}` pagination loop of
`fullSyncGetQueryResults` (`pkg/syncer/util.go`).  One fuel unit is one loop
iteration; `none` means the fuel ran out.  On success the number of backend
calls made is returned alongside the Go results `([]*CnsQueryResult, error)`,
the latter modelled as `Except E (List CnsQueryResult)`.  A query error
returns the error and discards the accumulated pages (Go `return nil, err`);
a nil page breaks out of the loop returning the accumulated pages; otherwise
the page is appended and the loop stops when the returned cursor offset
equals its total record count, else continues with the returned cursor. -/
def queryPagesLoop (backend : QueryVolumeBackend E) :
    Nat → CnsQueryFilter → List CnsQueryResult → Nat →
    Option (Except E (List CnsQueryResult) × Nat)
  | 0, _, _, _ => none
  | fuel + 1, queryFilter, allQueryResults, calls =>
    match backend queryFilter with
    | .error e => some (.error e, calls + 1)
    | .ok none => some (.ok allQueryResults, calls + 1)
    | .ok (some queryResult) =>
      let acc := allQueryResults ++ [queryResult]
      if queryResult.cursor.offset = queryResult.cursor.totalRecords then
        some (.ok acc, calls + 1)
      else
        queryPagesLoop backend fuel (advanceCursor queryFilter queryResult) acc (calls + 1)

/-- Initial query filter built by `fullSyncGetQueryResults`: the requested
volume ids, a cursor at offset 0 with the page-size limit (`TotalRecords`
takes the Go zero value 0), and the cluster scope when `clusterID` is
non-empty.  The constant `queryVolumeLimit` is declared elsewhere in the
`syncer` package (outside the provided sources) and is taken as a
parameter. -/
def initialQueryFilter (queryVolumeLimit : Int) (volumeIds : List CnsVolumeId)
    (clusterID : String) : CnsQueryFilter :=
  { volumeIds := volumeIds
    containerClusterIds := if clusterID ≠ "" then [clusterID] else []
    cursor := some { offset := 0, limit := queryVolumeLimit, totalRecords := 0 } }

/-- Embedding of `fullSyncGetQueryResults` (`pkg/syncer/util.go`): build the
initial filter and run the pagination loop with empty accumulator, counting
backend calls, with the given fuel. -/
def fullSyncGetQueryResults (queryVolumeLimit : Int) (backend : QueryVolumeBackend E)
    (volumeIds : List CnsVolumeId) (clusterID : String) (fuel : Nat) :
    Option (Except E (List CnsQueryResult) × Nat) :=
  queryPagesLoop backend fuel (initialQueryFilter queryVolumeLimit volumeIds clusterID) [] 0

/-- Filter sequence generated by the pagination loop from a backend and an
initial filter: while the backend answers with a continuing page the cursor
is advanced, otherwise the sequence becomes stationary. -/
def traceFilter (backend : QueryVolumeBackend E) (queryFilter : CnsQueryFilter) :
    Nat → CnsQueryFilter
  | 0 => queryFilter
  | n + 1 =>
    match backend (traceFilter backend queryFilter n) with
    | .ok (some queryResult) =>
      if queryResult.cursor.offset = queryResult.cursor.totalRecords then
        traceFilter backend queryFilter n
      else
        advanceCursor (traceFilter backend queryFilter n) queryResult
    | _ => traceFilter backend queryFilter n

/-- Decidable halting condition of one loop iteration: the backend answers
the given filter with an error, a nil page, or a page whose cursor offset
equals its total record count. -/
def haltingResponse (backend : QueryVolumeBackend E) (queryFilter : CnsQueryFilter) : Bool :=
  match backend queryFilter with
  | .error _ => true
  | .ok none => true
  | .ok (some queryResult) =>
    queryResult.cursor.offset == queryResult.cursor.totalRecords

/-- Kubernetes object metadata (`metav1.ObjectMeta`): the name, namespace and
annotation map — the fields the embedded code reads. -/
structure ObjectMeta where
  name : String
  ns : String
  anns : List (String × String)
deriving DecidableEq

/-- Phase of a persistent volume (`v1.PersistentVolumePhase`). -/
inductive PersistentVolumePhase
  | pending
  | available
  | bound
  | released
  | failed
deriving DecidableEq

/-- CSI source of a persistent volume (`v1.CSIPersistentVolumeSource`); only
the driver name is read by the embedded code. -/
structure CSIPersistentVolumeSource where
  driver : String
deriving DecidableEq

/-- Legacy in-tree vSphere volume source
(`v1.VsphereVirtualDiskVolumeSource`): storage path and policy name. -/
structure VsphereVirtualDiskVolumeSource where
  volumePath : String
  storagePolicyName : String
deriving DecidableEq

/-- Spec of a persistent volume (`v1.PersistentVolumeSpec`); the embedded
code reads the CSI source and the legacy vSphere source, both pointers in
Go, hence `Option`. -/
structure PersistentVolumeSpec where
  csi : Option CSIPersistentVolumeSource
  vsphereVolume : Option VsphereVirtualDiskVolumeSource
deriving DecidableEq

/-- Status of a persistent volume (`v1.PersistentVolumeStatus`). -/
structure PersistentVolumeStatus where
  phase : PersistentVolumePhase
deriving DecidableEq

/-- Persistent volume object (`v1.PersistentVolume`). -/
structure PersistentVolume where
  objectMeta : ObjectMeta
  spec : PersistentVolumeSpec
  status : PersistentVolumeStatus
deriving DecidableEq

/-- Spec of a persistent volume claim (`v1.PersistentVolumeClaimSpec`); the
embedded code reads the (pointer-valued) storage class name and the bound
volume name. -/
structure PersistentVolumeClaimSpec where
  storageClassName : Option String
  volumeName : String
deriving DecidableEq

/-- Persistent volume claim object (`v1.PersistentVolumeClaim`). -/
structure PersistentVolumeClaim where
  objectMeta : ObjectMeta
  spec : PersistentVolumeClaimSpec
deriving DecidableEq

/-- Claim reference inside a pod volume
(`v1.PersistentVolumeClaimVolumeSource`). -/
structure PersistentVolumeClaimVolumeSource where
  claimName : String
deriving DecidableEq

/-- Volume entry of a pod spec (`v1.Volume`): a name plus either a claim
reference or an inline legacy vSphere source (both pointers in Go). -/
structure Volume where
  name : String
  persistentVolumeClaim : Option PersistentVolumeClaimVolumeSource
  vsphereVolume : Option VsphereVirtualDiskVolumeSource
deriving DecidableEq

/-- Pod object (`v1.Pod`): metadata and the volumes of its spec. -/
structure Pod where
  objectMeta : ObjectMeta
  volumes : List Volume
deriving DecidableEq

/-- Legacy volume locator passed to the migration service
(`migration.VolumeSpec`). -/
structure MigrationVolumeSpec where
  volumePath : String
  storagePolicyName : String
deriving DecidableEq

/-- Model of the `metadataSyncInformer`: each lister is represented by the
result of the one call the embedded code makes on it
(`pvLister.List(labels.Everything())`, `pvLister.Get(name)`,
`pvcLister.PersistentVolumeClaims(ns).Get(name)`,
`podLister.List(labels.Everything())`), and the feature-state orchestrator
by its query function `coCommonInterface.IsFSSEnabled`. -/
structure MetadataSyncInformer (E : Type) where
  pvList : Except E (List PersistentVolume)
  pvGet : String → Except E PersistentVolume
  pvcGet : String → String → Except E PersistentVolumeClaim
  podList : Except E (List Pod)
  isFSSEnabled : String → Bool

/-- Embedding of `isValidvSphereVolume` (`pkg/syncer/util.go`): the PV
metadata either carries the migrated-to annotation, which must equal the
plugin name while the dynamically-provisioned annotation equals the in-tree
plugin name, or carries no migrated-to annotation and the
dynamically-provisioned annotation equals the plugin name.  The source
imports `pkg/csi/types` under both aliases `types` and `csitypes`, so
`types.Name` is `csitypesName`. -/
def isValidvSphereVolume (pvMetadata : ObjectMeta) : Bool :=
  match lookupAnn pvMetadata.anns AnnMigratedTo with
  | some ann =>
    ann == csitypesName &&
      lookupAnnD pvMetadata.anns AnnDynamicallyProvisioned == InTreePluginName
  | none =>
    lookupAnnD pvMetadata.anns AnnDynamicallyProvisioned == csitypesName

/-- Embedding of `isValidvSphereVolumeClaim` (`pkg/syncer/util.go`): same
shape as `isValidvSphereVolume` with the storage-provisioner annotation in
place of the dynamically-provisioned one. -/
def isValidvSphereVolumeClaim (pvcMetadata : ObjectMeta) : Bool :=
  match lookupAnn pvcMetadata.anns AnnMigratedTo with
  | some ann =>
    ann == csitypesName &&
      lookupAnnD pvcMetadata.anns AnnStorageProvisioner == InTreePluginName
  | none =>
    lookupAnnD pvcMetadata.anns AnnStorageProvisioner == csitypesName

/-- Condition of the Go test `pv.Spec.CSI != nil && pv.Spec.CSI.Driver ==
csitypes.Name` (short-circuit on the nil pointer). -/
def csiDriverMatches (pv : PersistentVolume) : Bool :=
  match pv.spec.csi with
  | some csiSource => csiSource.driver == csitypesName
  | none => false

/-- Embedding of `getPVsInBoundAvailableOrReleased` (`pkg/syncer/util.go`):
list all PVs (propagating a lister error), then accumulate, in order, those
PVs that pass the CSI-driver-or-migrated test and whose phase is Bound,
Available or Released. -/
def getPVsInBoundAvailableOrReleased (metadataSyncer : MetadataSyncInformer E) :
    Except E (List PersistentVolume) :=
  match metadataSyncer.pvList with
  | .error e => .error e
  | .ok allPVs =>
    .ok (allPVs.foldl
      (fun pvsInDesiredState pv =>
        if csiDriverMatches pv ||
            (metadataSyncer.isFSSEnabled CSIMigration && pv.spec.vsphereVolume.isSome &&
              isValidvSphereVolume pv.objectMeta) then
          if pv.status.phase == .bound || pv.status.phase == .available ||
              pv.status.phase == .released then
            pvsInDesiredState ++ [pv]
          else
            pvsInDesiredState
        else
          pvsInDesiredState)
      [])

/-- Embedding of `getBoundPVs` (`pkg/syncer/util.go`): list all PVs
(propagating a lister error), then accumulate, in order, those PVs whose
CSI source carries the plugin driver name and whose phase is Bound. -/
def getBoundPVs (metadataSyncer : MetadataSyncInformer E) :
    Except E (List PersistentVolume) :=
  match metadataSyncer.pvList with
  | .error e => .error e
  | .ok allPVs =>
    .ok (allPVs.foldl
      (fun boundPVs pv =>
        if csiDriverMatches pv then
          if pv.status.phase == .bound then
            boundPVs ++ [pv]
          else
            boundPVs
        else
          boundPVs)
      [])

/-- Body of the inner loop of `fullSyncGetInlineMigratedVolumesInfo` for one
pod volume: when the migration feature is on and the volume has an inline
legacy vSphere source, resolve it through the migration service; a
resolution error skips the reference (Go `continue`), a success inserts
canonical id ↦ legacy path into the map. -/
def inlineVolumeStep (volumeMigrationGetVolumeID : MigrationVolumeSpec → Except E String)
    (migrationFeatureState : Bool) (inlineVolumes : List (String × String))
    (volume : Volume) : List (String × String) :=
  match volume.vsphereVolume with
  | some vsphereSource =>
    if migrationFeatureState then
      match volumeMigrationGetVolumeID
          { volumePath := vsphereSource.volumePath
            storagePolicyName := vsphereSource.storagePolicyName } with
      | .error _ => inlineVolumes
      | .ok volumeHandle => mapInsert inlineVolumes volumeHandle vsphereSource.volumePath
    else
      inlineVolumes
  | none => inlineVolumes

/-- Embedding of `fullSyncGetInlineMigratedVolumesInfo`
(`pkg/syncer/util.go`): list all pods (propagating the lister error), then
fold `inlineVolumeStep` over every volume of every pod starting from the
empty map.  The package-global `volumeMigrationService.GetVolumeID` is
passed as the function argument `volumeMigrationGetVolumeID`. -/
def fullSyncGetInlineMigratedVolumesInfo (metadataSyncer : MetadataSyncInformer E)
    (volumeMigrationGetVolumeID : MigrationVolumeSpec → Except E String)
    (migrationFeatureState : Bool) : Except E (List (String × String)) :=
  match metadataSyncer.podList with
  | .error e => .error e
  | .ok allPods =>
    .ok (allPods.foldl
      (fun inlineVolumes pod =>
        pod.volumes.foldl (inlineVolumeStep volumeMigrationGetVolumeID migrationFeatureState)
          inlineVolumes)
      [])

/-- Embedding of `IsValidVolume` (`pkg/syncer/util.go`).  The Go code
dereferences `volume.PersistentVolumeClaim` unconditionally (a nil pointer
would panic; callers only pass claim-backed volumes), modelled here as a
rejecting branch that no proof relies on.  Then: a failing claim or volume
lookup rejects; the volume is rejected when (it lacks a CSI source with the
plugin driver name) AND (the migration feature is enabled AND it has no
legacy vSphere source); it is also rejected when the migration feature is
disabled AND it has a legacy vSphere source; otherwise it is accepted with
the PV and PVC. -/
def IsValidVolume (volume : Volume) (pod : Pod) (metadataSyncer : MetadataSyncInformer E) :
    Bool × Option PersistentVolume × Option PersistentVolumeClaim :=
  match volume.persistentVolumeClaim with
  | none => (false, none, none)
  | some claimSource =>
    match metadataSyncer.pvcGet pod.objectMeta.ns claimSource.claimName with
    | .error _ => (false, none, none)
    | .ok pvc =>
      match metadataSyncer.pvGet pvc.spec.volumeName with
      | .error _ => (false, none, none)
      | .ok pv =>
        if !csiDriverMatches pv &&
            (metadataSyncer.isFSSEnabled CSIMigration && pv.spec.vsphereVolume.isNone) then
          (false, none, none)
        else if !metadataSyncer.isFSSEnabled CSIMigration && pv.spec.vsphereVolume.isSome then
          (false, none, none)
        else
          (true, some pv, some pvc)

/-- Embedding of `GetSCNameFromPVC` (`pkg/syncer/util.go`): prefer the
structured storage-class field when non-nil and non-empty, else the legacy
annotation, else fail. -/
def GetSCNameFromPVC (pvc : PersistentVolumeClaim) : Except String String :=
  match pvc.spec.storageClassName with
  | some scName =>
    if scName == "" then
      let scNameFromAnn := lookupAnnD pvc.objectMeta.anns scNameAnnotationKey
      if scNameFromAnn == "" then
        .error "storage class name not specified in PVC"
      else
        .ok scNameFromAnn
    else
      .ok scName
  | none =>
    let scNameFromAnn := lookupAnnD pvc.objectMeta.anns scNameAnnotationKey
    if scNameFromAnn == "" then
      .error "storage class name not specified in PVC"
    else
      .ok scNameFromAnn

/-- Concrete first page (2 records, cursor offset 2, limit 2, total 5) used
in concrete runs of the pagination loop. -/
def c1Page1 : CnsQueryResult :=
  { volumes := [⟨⟨"vol-1"⟩⟩, ⟨⟨"vol-2"⟩⟩], cursor := ⟨2, 2, 5⟩ }

/-- Concrete second page (2 records, cursor offset 4, limit 2, total 5). -/
def c1Page2 : CnsQueryResult :=
  { volumes := [⟨⟨"vol-3"⟩⟩, ⟨⟨"vol-4"⟩⟩], cursor := ⟨4, 2, 5⟩ }

/-- Concrete third page (1 record, cursor offset 5, limit 2, total 5). -/
def c1Page3 : CnsQueryResult :=
  { volumes := [⟨⟨"vol-5"⟩⟩], cursor := ⟨5, 2, 5⟩ }

/-- Concrete backend answering three pages of 2/2/1 records keyed on the
filter cursor, and a nil page on any other filter. -/
def c1Backend : QueryVolumeBackend String := fun queryFilter =>
  if queryFilter.cursor = some ⟨0, 2, 0⟩ then .ok (some c1Page1)
  else if queryFilter.cursor = some ⟨2, 2, 5⟩ then .ok (some c1Page2)
  else if queryFilter.cursor = some ⟨4, 2, 5⟩ then .ok (some c1Page3)
  else .ok none

/-- Concrete backend answering a first page and an error on the second
call. -/
def c2Backend : QueryVolumeBackend String := fun queryFilter =>
  if queryFilter.cursor = some ⟨0, 2, 0⟩ then .ok (some c1Page1)
  else .error "query failed"

/-- Concrete non-nil page with zero records whose cursor offset (0) differs
from its total record count (5). -/
def c3EmptyPage : CnsQueryResult := { volumes := [], cursor := ⟨0, 2, 5⟩ }

/-- Concrete backend answering the empty-but-non-nil page first and a nil
page on any later filter. -/
def c3Backend : QueryVolumeBackend String := fun queryFilter =>
  if queryFilter.cursor = some ⟨0, 2, 0⟩ then .ok (some c3EmptyPage)
  else .ok none

/-- Concrete backend answering every query with a nil page. -/
def nilBackend : QueryVolumeBackend String := fun _ => .ok none

/-- Concrete PV owned by this CSI driver, phase Bound. -/
def pvBoundCSI : PersistentVolume :=
  { objectMeta := { name := "pv-csi-bound", ns := "", anns := [] }
    spec := { csi := some { driver := csitypesName }, vsphereVolume := none }
    status := { phase := .bound } }

/-- Concrete PV owned by this CSI driver, phase Pending (filtered out by
phase). -/
def pvPendingCSI : PersistentVolume :=
  { objectMeta := { name := "pv-csi-pending", ns := "", anns := [] }
    spec := { csi := some { driver := csitypesName }, vsphereVolume := none }
    status := { phase := .pending } }

/-- Concrete PV owned by a foreign CSI driver, phase Bound (filtered out by
ownership). -/
def pvOtherDriver : PersistentVolume :=
  { objectMeta := { name := "pv-other", ns := "", anns := [] }
    spec := { csi := some { driver := "other.csi.driver" }, vsphereVolume := none }
    status := { phase := .bound } }

/-- Concrete validly migrated legacy vSphere PV (no migrated-to annotation,
dynamically-provisioned annotation carries the plugin name), phase
Available. -/
def pvLegacyValid : PersistentVolume :=
  { objectMeta := { name := "pv-legacy", ns := ""
                    anns := [(AnnDynamicallyProvisioned, csitypesName)] }
    spec := { csi := none, vsphereVolume := some { volumePath := "[ds] a.vmdk", storagePolicyName := "" } }
    status := { phase := .available } }

/-- Concrete validly migrated legacy vSphere PV, phase Bound. -/
def pvLegacyBound : PersistentVolume :=
  { objectMeta := { name := "pv-legacy-bound", ns := ""
                    anns := [(AnnDynamicallyProvisioned, csitypesName)] }
    spec := { csi := none, vsphereVolume := some { volumePath := "[ds] b.vmdk", storagePolicyName := "" } }
    status := { phase := .bound } }

/-- Concrete informer for phase-filtered discovery: four PVs, migration
feature enabled; the other listers are unused by the call. -/
def msDiscovery : MetadataSyncInformer String :=
  { pvList := .ok [pvBoundCSI, pvPendingCSI, pvOtherDriver, pvLegacyValid]
    pvGet := fun _ => .error "unused"
    pvcGet := fun _ _ => .error "unused"
    podList := .ok []
    isFSSEnabled := fun _ => true }

/-- Concrete informer for bound-only discovery: a validly migrated bound
legacy PV plus a bound CSI PV, migration feature enabled. -/
def msBound : MetadataSyncInformer String :=
  { pvList := .ok [pvLegacyBound, pvBoundCSI]
    pvGet := fun _ => .error "unused"
    pvcGet := fun _ _ => .error "unused"
    podList := .ok []
    isFSSEnabled := fun _ => true }

/-- Concrete claim reference of a pod volume. -/
def claimSourceC6 : PersistentVolumeClaimVolumeSource := { claimName := "claim-6" }

/-- Concrete pod volume backed by a claim. -/
def volumeC6 : Volume :=
  { name := "vol-6", persistentVolumeClaim := some claimSourceC6, vsphereVolume := none }

/-- Concrete pod mounting `volumeC6`. -/
def podC6 : Pod := { objectMeta := { name := "pod-6", ns := "ns-6", anns := [] }, volumes := [volumeC6] }

/-- Concrete PVC bound to the volume named `pv-6`. -/
def pvcC6 : PersistentVolumeClaim :=
  { objectMeta := { name := "claim-6", ns := "ns-6", anns := [] }
    spec := { storageClassName := none, volumeName := "pv-6" } }

/-- Concrete PV with neither a CSI source nor a legacy vSphere source. -/
def pvNeither : PersistentVolume :=
  { objectMeta := { name := "pv-6", ns := "", anns := [] }
    spec := { csi := none, vsphereVolume := none }
    status := { phase := .bound } }

/-- Concrete informer whose claim and volume lookups succeed with `pvcC6`
and `pvNeither`, migration feature disabled. -/
def msNeither : MetadataSyncInformer String :=
  { pvList := .ok []
    pvGet := fun _ => .ok pvNeither
    pvcGet := fun _ _ => .ok pvcC6
    podList := .ok []
    isFSSEnabled := fun _ => false }

/-- Concrete informer whose claim and volume lookups succeed with `pvcC6`
and the legacy PV `pvLegacyBound`, migration feature disabled. -/
def msLegacyNoMigration : MetadataSyncInformer String :=
  { pvList := .ok []
    pvGet := fun _ => .ok pvLegacyBound
    pvcGet := fun _ _ => .ok pvcC6
    podList := .ok []
    isFSSEnabled := fun _ => false }

/-- Concrete PVC metadata carrying the migrated-to annotation with the
plugin name and the storage-provisioner annotation with the in-tree plugin
name. -/
def pvcMetaMigrated : ObjectMeta :=
  { name := "pvc-7", ns := "ns-7"
    anns := [(AnnMigratedTo, csitypesName), (AnnStorageProvisioner, InTreePluginName)] }

/-- Concrete PVC with an empty structured storage-class field and the legacy
storage-class annotation set to `fast-disk`. -/
def pvcFastDisk : PersistentVolumeClaim :=
  { objectMeta := { name := "pvc-8", ns := "ns-8", anns := [(scNameAnnotationKey, "fast-disk")] }
    spec := { storageClassName := some "", volumeName := "pv-8" } }

/-- Concrete PVC with neither a structured storage-class field nor the
legacy annotation. -/
def pvcNoSC : PersistentVolumeClaim :=
  { objectMeta := { name := "pvc-8b", ns := "ns-8", anns := [] }
    spec := { storageClassName := none, volumeName := "pv-8b" } }

/-- Concrete inline legacy volume whose path resolves. -/
def volInlineGood : Volume :=
  { name := "inline-good", persistentVolumeClaim := none
    vsphereVolume := some { volumePath := "[ds] good.vmdk", storagePolicyName := "gold" } }

/-- Concrete inline legacy volume whose path fails to resolve. -/
def volInlineBad : Volume :=
  { name := "inline-bad", persistentVolumeClaim := none
    vsphereVolume := some { volumePath := "[ds] bad.vmdk", storagePolicyName := "gold" } }

/-- Concrete pod carrying both inline legacy volumes. -/
def podInline : Pod :=
  { objectMeta := { name := "pod-9", ns := "ns-9", anns := [] }
    volumes := [volInlineGood, volInlineBad] }

/-- Concrete informer listing the one pod with inline volumes. -/
def msInline : MetadataSyncInformer String :=
  { pvList := .ok []
    pvGet := fun _ => .error "unused"
    pvcGet := fun _ _ => .error "unused"
    podList := .ok [podInline]
    isFSSEnabled := fun _ => true }

/-- Concrete migration-service resolver: the good path resolves to
`cns-id-good`, every other path fails. -/
def vmsResolver : MigrationVolumeSpec → Except String String := fun volumeSpec =>
  if volumeSpec.volumePath = "[ds] good.vmdk" then .ok "cns-id-good"
  else .error "resolution failed"

/-- Unfolding of one pagination-loop iteration on a query error: the error
is surfaced and the accumulated pages are discarded (Go `return nil, err`). -/
theorem queryPagesLoop_error {backend : QueryVolumeBackend E} {queryFilter : CnsQueryFilter}
    {e : E} (fuel : Nat) (acc : List CnsQueryResult) (calls : Nat)
    (h : backend queryFilter = .error e) :
    queryPagesLoop backend (fuel + 1) queryFilter acc calls = some (.error e, calls + 1) := by
  simp [queryPagesLoop, h]

/-- Unfolding of one pagination-loop iteration on a nil page: the loop
breaks and the accumulated pages are returned with a nil error. -/
theorem queryPagesLoop_nil {backend : QueryVolumeBackend E} {queryFilter : CnsQueryFilter}
    (fuel : Nat) (acc : List CnsQueryResult) (calls : Nat)
    (h : backend queryFilter = .ok none) :
    queryPagesLoop backend (fuel + 1) queryFilter acc calls = some (.ok acc, calls + 1) := by
  simp [queryPagesLoop, h]

/-- Unfolding of one pagination-loop iteration on a page whose cursor offset
equals its total record count: the page is appended and the loop breaks. -/
theorem queryPagesLoop_stop {backend : QueryVolumeBackend E} {queryFilter : CnsQueryFilter}
    {queryResult : CnsQueryResult} (fuel : Nat) (acc : List CnsQueryResult) (calls : Nat)
    (h : backend queryFilter = .ok (some queryResult))
    (hstop : queryResult.cursor.offset = queryResult.cursor.totalRecords) :
    queryPagesLoop backend (fuel + 1) queryFilter acc calls =
      some (.ok (acc ++ [queryResult]), calls + 1) := by
  simp [queryPagesLoop, h, hstop]

/-- Unfolding of one pagination-loop iteration on a page whose cursor offset
differs from its total record count: the page is appended and the loop
continues with the returned cursor. -/
theorem queryPagesLoop_continue {backend : QueryVolumeBackend E} {queryFilter : CnsQueryFilter}
    {queryResult : CnsQueryResult} (fuel : Nat) (acc : List CnsQueryResult) (calls : Nat)
    (h : backend queryFilter = .ok (some queryResult))
    (hne : queryResult.cursor.offset ≠ queryResult.cursor.totalRecords) :
    queryPagesLoop backend (fuel + 1) queryFilter acc calls =
      queryPagesLoop backend fuel (advanceCursor queryFilter queryResult)
        (acc ++ [queryResult]) (calls + 1) := by
  simp [queryPagesLoop, h, hne]

/-- Unfolding of one step of the generated filter sequence. -/
theorem traceFilter_succ (backend : QueryVolumeBackend E) (queryFilter : CnsQueryFilter)
    (n : Nat) :
    traceFilter backend queryFilter (n + 1) =
      match backend (traceFilter backend queryFilter n) with
      | .ok (some queryResult) =>
        if queryResult.cursor.offset = queryResult.cursor.totalRecords then
          traceFilter backend queryFilter n
        else advanceCursor (traceFilter backend queryFilter n) queryResult
      | _ => traceFilter backend queryFilter n := rfl

/-- Shifting of the generated filter sequence across one continuing page. -/
theorem traceFilter_shift {backend : QueryVolumeBackend E} {queryFilter : CnsQueryFilter}
    {queryResult : CnsQueryResult}
    (h : backend queryFilter = .ok (some queryResult))
    (hne : queryResult.cursor.offset ≠ queryResult.cursor.totalRecords) :
    ∀ n, traceFilter backend queryFilter (n + 1) =
      traceFilter backend (advanceCursor queryFilter queryResult) n := by
  intro n
  induction n with
  | zero => simp [traceFilter_succ, traceFilter, h, hne]
  | succ n ih =>
    rw [traceFilter_succ, ih]
    exact (traceFilter_succ backend (advanceCursor queryFilter queryResult) n).symm

/-- Sufficiency of a halting response along the filter sequence: if the
response to the n-th generated filter halts the loop, fuel n + 1 finishes
it. -/
theorem haltAt_isSome :
    ∀ (n : Nat) (backend : QueryVolumeBackend E) (queryFilter : CnsQueryFilter)
      (acc : List CnsQueryResult) (calls : Nat),
      haltingResponse backend (traceFilter backend queryFilter n) = true →
      (queryPagesLoop backend (n + 1) queryFilter acc calls).isSome := by
  intro n
  induction n with
  | zero =>
    intro backend queryFilter acc calls h
    rw [show traceFilter backend queryFilter 0 = queryFilter from rfl] at h
    unfold haltingResponse at h
    cases hb : backend queryFilter with
    | error e => simp [queryPagesLoop_error _ acc calls hb]
    | ok o =>
      cases o with
      | none => simp [queryPagesLoop_nil _ acc calls hb]
      | some queryResult =>
        rw [hb] at h
        simp only [beq_iff_eq] at h
        simp [queryPagesLoop_stop _ acc calls hb h]
  | succ n ih =>
    intro backend queryFilter acc calls h
    cases hb : backend queryFilter with
    | error e => simp [queryPagesLoop_error _ acc calls hb]
    | ok o =>
      cases o with
      | none => simp [queryPagesLoop_nil _ acc calls hb]
      | some queryResult =>
        by_cases hstop : queryResult.cursor.offset = queryResult.cursor.totalRecords
        · simp [queryPagesLoop_stop _ acc calls hb hstop]
        · rw [queryPagesLoop_continue _ acc calls hb hstop]
          apply ih
          rw [← traceFilter_shift hb hstop n]
          exact h

/-- Necessity of a halting response along the filter sequence: a finished
loop run exhibits a halting response at some index. -/
theorem isSome_haltAt :
    ∀ (fuel : Nat) (backend : QueryVolumeBackend E) (queryFilter : CnsQueryFilter)
      (acc : List CnsQueryResult) (calls : Nat),
      (queryPagesLoop backend fuel queryFilter acc calls).isSome →
      ∃ n, haltingResponse backend (traceFilter backend queryFilter n) = true := by
  intro fuel
  induction fuel with
  | zero =>
    intro backend queryFilter acc calls h
    simp [queryPagesLoop] at h
  | succ fuel ih =>
    intro backend queryFilter acc calls h
    cases hb : backend queryFilter with
    | error e => exact ⟨0, by simp [haltingResponse, traceFilter, hb]⟩
    | ok o =>
      cases o with
      | none => exact ⟨0, by simp [haltingResponse, traceFilter, hb]⟩
      | some queryResult =>
        by_cases hstop : queryResult.cursor.offset = queryResult.cursor.totalRecords
        · exact ⟨0, by simp [haltingResponse, traceFilter, hb, hstop]⟩
        · rw [queryPagesLoop_continue _ acc calls hb hstop] at h
          obtain ⟨n, hn⟩ := ih backend (advanceCursor queryFilter queryResult) _ _ h
          exact ⟨n + 1, by rw [traceFilter_shift hb hstop n]; exact hn⟩

/-- Claim C1: for every backend whose responses are three non-nil pages of
2, 2 and 1 records with cursor limit 2, total record count 5 and returned
offsets 2, 4 and 5, `fullSyncGetQueryResults` starts its filter at offset
0, makes exactly 3 backend calls, returns the three pages (5 records merged
in call order) with a nil error, and terminates because the last returned
cursor offset (5) equals its total record count (5); in general the loop
stops as soon as a returned cursor offset equals its total record count. -/
theorem fullSync_query_three_pages {E : Type} (queryVolumeLimit : Int)
    (backend : QueryVolumeBackend E) (volumeIds : List CnsVolumeId) (clusterID : String)
    (p1 p2 p3 : CnsQueryResult)
    (h1len : p1.volumes.length = 2) (h2len : p2.volumes.length = 2)
    (h3len : p3.volumes.length = 1)
    (h1c : p1.cursor = ⟨2, 2, 5⟩) (h2c : p2.cursor = ⟨4, 2, 5⟩) (h3c : p3.cursor = ⟨5, 2, 5⟩)
    (hb0 : backend (initialQueryFilter queryVolumeLimit volumeIds clusterID) = .ok (some p1))
    (hb1 : backend (advanceCursor (initialQueryFilter queryVolumeLimit volumeIds clusterID) p1) =
      .ok (some p2))
    (hb2 : backend (advanceCursor
      (advanceCursor (initialQueryFilter queryVolumeLimit volumeIds clusterID) p1) p2) =
      .ok (some p3)) :
    (initialQueryFilter queryVolumeLimit volumeIds clusterID).cursor =
      some ⟨0, queryVolumeLimit, 0⟩
    ∧ (∀ fuel, 3 ≤ fuel →
        fullSyncGetQueryResults queryVolumeLimit backend volumeIds clusterID fuel =
          some (.ok [p1, p2, p3], 3))
    ∧ (p1.volumes ++ p2.volumes ++ p3.volumes).length = 5
    ∧ p3.cursor.offset = p3.cursor.totalRecords
    ∧ (∀ (backendB : QueryVolumeBackend E) fuel queryFilter acc calls queryResult,
        backendB queryFilter = .ok (some queryResult) →
        queryResult.cursor.offset = queryResult.cursor.totalRecords →
        queryPagesLoop backendB (fuel + 1) queryFilter acc calls =
          some (.ok (acc ++ [queryResult]), calls + 1)) := by
  refine ⟨rfl, ?_, ?_, ?_, ?_⟩
  · intro fuel hfuel
    obtain ⟨k, rfl⟩ := Nat.exists_eq_add_of_le hfuel
    rw [fullSyncGetQueryResults, show 3 + k = k + 1 + 1 + 1 by omega,
      queryPagesLoop_continue _ _ _ hb0 (by rw [h1c]; decide),
      queryPagesLoop_continue _ _ _ hb1 (by rw [h2c]; decide),
      queryPagesLoop_stop _ _ _ hb2 (by rw [h3c])]
    simp
  · simp [h1len, h2len, h3len]
  · rw [h3c]
  · intro backendB fuel queryFilter acc calls queryResult hb hstop
    exact queryPagesLoop_stop _ _ _ hb hstop

/-- Witness for claim C1: the concrete three-page backend merges its 5
records into 3 pages within exactly 3 calls. -/
theorem fullSync_query_three_pages_witness :
    fullSyncGetQueryResults 2 c1Backend [] "" 3 = some (.ok [c1Page1, c1Page2, c1Page3], 3) :=
  (fullSync_query_three_pages 2 c1Backend [] "" c1Page1 c1Page2 c1Page3
    rfl rfl rfl rfl rfl rfl (by decide) (by decide) (by decide)).2.1 3 (by decide)

/-- Claim C2: whenever some page query fails (here the second one), the
function surfaces that error with no partial result — the error constructor
carries no pages, so the pages fetched before the failure are discarded;
in general a failing call returns the error immediately, discarding the
accumulator. -/
theorem fullSync_query_error_aborts {E : Type} (queryVolumeLimit : Int)
    (backend : QueryVolumeBackend E) (volumeIds : List CnsVolumeId) (clusterID : String)
    (p1 : CnsQueryResult) (e : E)
    (hb0 : backend (initialQueryFilter queryVolumeLimit volumeIds clusterID) = .ok (some p1))
    (hne : p1.cursor.offset ≠ p1.cursor.totalRecords)
    (hb1 : backend (advanceCursor (initialQueryFilter queryVolumeLimit volumeIds clusterID) p1) =
      .error e) :
    (∀ fuel, 2 ≤ fuel →
        fullSyncGetQueryResults queryVolumeLimit backend volumeIds clusterID fuel =
          some (.error e, 2))
    ∧ (∀ (backendB : QueryVolumeBackend E) fuel queryFilter acc calls eB,
        backendB queryFilter = .error eB →
        queryPagesLoop backendB (fuel + 1) queryFilter acc calls =
          some (.error eB, calls + 1)) := by
  constructor
  · intro fuel hfuel
    obtain ⟨k, rfl⟩ := Nat.exists_eq_add_of_le hfuel
    rw [fullSyncGetQueryResults, show 2 + k = k + 1 + 1 by omega,
      queryPagesLoop_continue _ _ _ hb0 hne, queryPagesLoop_error _ _ _ hb1]
  · exact fun backendB fuel queryFilter acc calls eB h => queryPagesLoop_error _ _ _ h

/-- Witness for claim C2: the concrete backend failing on the second page
surfaces the error after exactly 2 calls with no pages. -/
theorem fullSync_query_error_aborts_witness :
    fullSyncGetQueryResults 2 c2Backend [] "" 2 = some (.error "query failed", 2) :=
  (fullSync_query_error_aborts 2 c2Backend [] "" c1Page1 "query failed"
    (by decide) (by decide) (by decide)).1 2 (by decide)

/-- Counterexample for claim C3: an empty-but-non-nil page does NOT stop
the pagination loop — the concrete backend answers a zero-record page with
cursor offset 0 and total 5, and the loop appends it and issues another
backend call instead of returning the previously accumulated pages. -/
theorem fullSync_empty_page_stops_cex :
    ¬ (∀ (backend : QueryVolumeBackend String) (queryFilter : CnsQueryFilter)
        (acc : List CnsQueryResult) (calls fuel : Nat) (queryResult : CnsQueryResult),
        backend queryFilter = .ok (some queryResult) →
        queryResult.volumes = [] →
        queryPagesLoop backend (fuel + 1) queryFilter acc calls =
          some (.ok acc, calls + 1)) := by
  intro h
  have h2 := h c3Backend (initialQueryFilter 2 [] "") [] 0 3 c3EmptyPage (by decide) rfl
  exact absurd h2 (by decide)

/-- Claim C3 (amended): whenever a `QueryVolume` call returns a NIL query
result, the pagination loop stops and the pages accumulated so far are
returned with a nil error; if already the first response is nil the whole
function returns the empty page list after one call.  (A non-nil result
with zero records does not stop the loop unless its cursor offset equals
its total record count.) -/
theorem fullSync_nil_result_stops {E : Type} (queryVolumeLimit : Int)
    (backend : QueryVolumeBackend E) (volumeIds : List CnsVolumeId) (clusterID : String) :
    (∀ fuel queryFilter acc calls,
        backend queryFilter = .ok none →
        queryPagesLoop backend (fuel + 1) queryFilter acc calls = some (.ok acc, calls + 1))
    ∧ (backend (initialQueryFilter queryVolumeLimit volumeIds clusterID) = .ok none →
        ∀ fuel, fullSyncGetQueryResults queryVolumeLimit backend volumeIds clusterID (fuel + 1) =
          some (.ok [], 1)) := by
  constructor
  · exact fun fuel queryFilter acc calls h => queryPagesLoop_nil _ _ _ h
  · intro h fuel
    rw [fullSyncGetQueryResults, queryPagesLoop_nil _ _ _ h]

/-- Witness for claim C3: the all-nil backend finishes after one call with
no pages. -/
theorem fullSync_nil_result_stops_witness :
    fullSyncGetQueryResults 2 nilBackend [] "" 1 = some (.ok [], 1) :=
  (fullSync_nil_result_stops 2 nilBackend [] "").2 rfl 0

/-- Claim C10: the pagination loop terminates (some fuel suffices) exactly
when the backend response sequence along the generated filters eventually
yields an error, a nil result, or a page whose cursor offset equals its
total record count; moreover a non-nil page with zero records whose cursor
offset differs from its total record count is appended and the loop
continues. -/
theorem fullSync_pagination_termination_iff {E : Type} (queryVolumeLimit : Int)
    (backend : QueryVolumeBackend E) (volumeIds : List CnsVolumeId) (clusterID : String) :
    ((∃ fuel, (fullSyncGetQueryResults queryVolumeLimit backend volumeIds clusterID fuel).isSome)
      ↔ (∃ n, haltingResponse backend
          (traceFilter backend (initialQueryFilter queryVolumeLimit volumeIds clusterID) n) =
            true))
    ∧ (∀ queryFilter acc calls fuel queryResult,
        backend queryFilter = .ok (some queryResult) →
        queryResult.volumes = [] →
        queryResult.cursor.offset ≠ queryResult.cursor.totalRecords →
        queryPagesLoop backend (fuel + 1) queryFilter acc calls =
          queryPagesLoop backend fuel (advanceCursor queryFilter queryResult)
            (acc ++ [queryResult]) (calls + 1)) := by
  constructor
  · constructor
    · rintro ⟨fuel, h⟩
      exact isSome_haltAt fuel backend _ _ _ h
    · rintro ⟨n, hn⟩
      exact ⟨n + 1, haltAt_isSome n backend _ _ _ hn⟩
  · intro queryFilter acc calls fuel queryResult hb _ hne
    exact queryPagesLoop_continue _ _ _ hb hne

/-- Witness for claim C10: the all-nil backend halts at index 0, hence the
loop terminates on it. -/
theorem fullSync_pagination_termination_iff_witness :
    ∃ fuel, (fullSyncGetQueryResults 2 nilBackend [] "" fuel).isSome :=
  (fullSync_pagination_termination_iff 2 nilBackend [] "").1.mpr ⟨0, by decide⟩

/-- Fold of the Go append-under-two-nested-conditions pattern equals a
filter by the conjunction of the conditions. -/
theorem foldl_ite2_filter {α : Type} (p q : α → Bool) (l : List α) :
    ∀ acc : List α,
      l.foldl (fun r x => if p x then (if q x then r ++ [x] else r) else r) acc =
        acc ++ l.filter (fun x => p x && q x) := by
  induction l with
  | nil => intro acc; simp
  | cons x xs ih =>
    intro acc
    cases hp : p x <;> cases hq : q x <;>
      simp [hp, hq, ih, List.filter_cons]

/-- Claim C4: `getPVsInBoundAvailableOrReleased` returns exactly those PVs
from the lister for which ((there is a CSI source with this plugin's driver
name) OR (the migration feature is enabled AND there is a legacy vSphere
source AND `isValidvSphereVolume` holds on the metadata)) AND the phase is
Bound, Available or Released; a lister failure is propagated as the error
with no result, and no other PV is ever included. -/
theorem getPVs_bound_available_released_spec {E : Type}
    (metadataSyncer : MetadataSyncInformer E) :
    (∀ e, metadataSyncer.pvList = .error e →
        getPVsInBoundAvailableOrReleased metadataSyncer = .error e)
    ∧ (∀ allPVs, metadataSyncer.pvList = .ok allPVs →
        getPVsInBoundAvailableOrReleased metadataSyncer =
          .ok (allPVs.filter (fun pv =>
            (csiDriverMatches pv ||
              (metadataSyncer.isFSSEnabled CSIMigration && pv.spec.vsphereVolume.isSome &&
                isValidvSphereVolume pv.objectMeta)) &&
            (pv.status.phase == .bound || pv.status.phase == .available ||
              pv.status.phase == .released)))) := by
  constructor
  · intro e he
    unfold getPVsInBoundAvailableOrReleased
    rw [he]
  · intro allPVs hok
    unfold getPVsInBoundAvailableOrReleased
    rw [hok]
    refine congrArg Except.ok ?_
    have h := foldl_ite2_filter
      (fun pv => csiDriverMatches pv ||
        (metadataSyncer.isFSSEnabled CSIMigration && pv.spec.vsphereVolume.isSome &&
          isValidvSphereVolume pv.objectMeta))
      (fun pv => pv.status.phase == .bound || pv.status.phase == .available ||
        pv.status.phase == .released) allPVs []
    simpa using h

/-- Witness for claim C4: the concrete four-PV lister yields exactly the
bound CSI PV and the validly migrated available legacy PV. -/
theorem getPVs_bound_available_released_witness :
    getPVsInBoundAvailableOrReleased msDiscovery = .ok [pvBoundCSI, pvLegacyValid] :=
  ((getPVs_bound_available_released_spec msDiscovery).2 _ rfl).trans (by decide)

/-- Counterexample for claim C5: `getBoundPVs` does NOT apply the same
driver-ownership filter as phase-filtered discovery — with the migration
feature enabled, a validly migrated bound legacy PV passes that filter but
is not returned by `getBoundPVs`, which tests only the CSI source. -/
theorem getBoundPVs_migration_clause_cex :
    ¬ (∀ (metadataSyncer : MetadataSyncInformer String) allPVs,
        metadataSyncer.pvList = .ok allPVs →
        getBoundPVs metadataSyncer =
          .ok (allPVs.filter (fun pv =>
            (csiDriverMatches pv ||
              (metadataSyncer.isFSSEnabled CSIMigration && pv.spec.vsphereVolume.isSome &&
                isValidvSphereVolume pv.objectMeta)) &&
            (pv.status.phase == .bound)))) := by
  intro h
  have h2 := h msBound _ rfl
  exact absurd h2 (by decide)

/-- Claim C5 (amended): `getBoundPVs` filters on CSI-driver ownership only —
a PV is returned iff it carries a CSI source with this plugin's driver name
and its phase is Bound; the migration clause of phase-filtered discovery is
absent, so validly migrated legacy PVs are not returned; a lister failure
is propagated as the error. -/
theorem getBoundPVs_csi_only_spec {E : Type} (metadataSyncer : MetadataSyncInformer E) :
    (∀ e, metadataSyncer.pvList = .error e → getBoundPVs metadataSyncer = .error e)
    ∧ (∀ allPVs, metadataSyncer.pvList = .ok allPVs →
        getBoundPVs metadataSyncer =
          .ok (allPVs.filter
            (fun pv => csiDriverMatches pv && (pv.status.phase == .bound)))) := by
  constructor
  · intro e he
    unfold getBoundPVs
    rw [he]
  · intro allPVs hok
    unfold getBoundPVs
    rw [hok]
    refine congrArg Except.ok ?_
    have h := foldl_ite2_filter (fun pv => csiDriverMatches pv)
      (fun pv => pv.status.phase == .bound) allPVs []
    simpa using h

/-- Witness for claim C5: of a validly migrated bound legacy PV and a bound
CSI PV, `getBoundPVs` returns only the latter. -/
theorem getBoundPVs_csi_only_witness :
    getBoundPVs msBound = .ok [pvBoundCSI] :=
  ((getBoundPVs_csi_only_spec msBound).2 _ rfl).trans (by decide)

/-- Claim C7: `isValidvSphereVolumeClaim` holds on PVC metadata iff either
the migrated-to annotation is present, equals the plugin name, and the
storage-provisioner annotation equals the legacy in-tree plugin name, or
the migrated-to annotation is absent and the storage-provisioner annotation
equals the plugin name; every other case — including a migrated-to
annotation with any other value — is rejected. -/
theorem isValidvSphereVolumeClaim_spec (pvcMetadata : ObjectMeta) :
    isValidvSphereVolumeClaim pvcMetadata = true ↔
      ((lookupAnn pvcMetadata.anns AnnMigratedTo = some csitypesName ∧
        lookupAnnD pvcMetadata.anns AnnStorageProvisioner = InTreePluginName) ∨
       (lookupAnn pvcMetadata.anns AnnMigratedTo = none ∧
        lookupAnnD pvcMetadata.anns AnnStorageProvisioner = csitypesName)) := by
  unfold isValidvSphereVolumeClaim
  cases hmig : lookupAnn pvcMetadata.anns AnnMigratedTo with
  | none => simp [hmig]
  | some a => simp [hmig]

/-- Witness for claim C7: metadata with migrated-to = plugin name and
storage-provisioner = in-tree plugin name is classified valid. -/
theorem isValidvSphereVolumeClaim_witness :
    isValidvSphereVolumeClaim pvcMetaMigrated = true :=
  (isValidvSphereVolumeClaim_spec pvcMetaMigrated).mpr (Or.inl (by decide))

/-- Claim C8: `GetSCNameFromPVC` returns the structured storage-class field
when non-nil and non-empty; otherwise the legacy annotation value when
non-empty; when neither is present it fails with the not-specified error;
and it never returns an empty class name with a nil error. -/
theorem GetSCNameFromPVC_spec (pvc : PersistentVolumeClaim) :
    (∀ s, pvc.spec.storageClassName = some s → s ≠ "" → GetSCNameFromPVC pvc = .ok s)
    ∧ ((pvc.spec.storageClassName = none ∨ pvc.spec.storageClassName = some "") →
        lookupAnnD pvc.objectMeta.anns scNameAnnotationKey ≠ "" →
        GetSCNameFromPVC pvc = .ok (lookupAnnD pvc.objectMeta.anns scNameAnnotationKey))
    ∧ ((pvc.spec.storageClassName = none ∨ pvc.spec.storageClassName = some "") →
        lookupAnnD pvc.objectMeta.anns scNameAnnotationKey = "" →
        GetSCNameFromPVC pvc = .error "storage class name not specified in PVC")
    ∧ (∀ s, GetSCNameFromPVC pvc = .ok s → s ≠ "") := by
  refine ⟨?_, ?_, ?_, ?_⟩
  · intro s hs hne
    unfold GetSCNameFromPVC
    rw [hs]
    simp [hne]
  · intro hsc hann
    unfold GetSCNameFromPVC
    rcases hsc with h | h <;> rw [h] <;> simp [hann]
  · intro hsc hann
    unfold GetSCNameFromPVC
    rcases hsc with h | h <;> rw [h] <;> simp [hann]
  · intro s h
    unfold GetSCNameFromPVC at h
    cases hsc : pvc.spec.storageClassName with
    | none =>
      rw [hsc] at h
      by_cases hann : lookupAnnD pvc.objectMeta.anns scNameAnnotationKey = ""
      · simp [hann] at h
      · simp [hann] at h
        intro hs
        exact hann (h ▸ hs)
    | some t =>
      rw [hsc] at h
      by_cases ht : t = ""
      · subst ht
        by_cases hann : lookupAnnD pvc.objectMeta.anns scNameAnnotationKey = ""
        · simp [hann] at h
        · simp [hann] at h
          intro hs
          exact hann (h ▸ hs)
      · simp [ht] at h
        intro hs
        exact ht (h ▸ hs)

/-- Witness for claim C8: a PVC with empty structured class name and legacy
annotation `fast-disk` resolves to `fast-disk`; a PVC with neither fails
with the not-specified error. -/
theorem GetSCNameFromPVC_witness :
    GetSCNameFromPVC pvcFastDisk = .ok "fast-disk" ∧
    GetSCNameFromPVC pvcNoSC = .error "storage class name not specified in PVC" :=
  ⟨((GetSCNameFromPVC_spec pvcFastDisk).2.1 (Or.inr rfl) (by decide)).trans (by decide),
   (GetSCNameFromPVC_spec pvcNoSC).2.2.1 (Or.inl rfl) rfl⟩

/-- Counterexample for claim C6: with the migration feature disabled,
`IsValidVolume` ACCEPTS a PV that has neither a CSI source with this
plugin's driver name nor a legacy vSphere source, although the claimed
acceptance condition (CSI-driver-or-validly-migrated) rejects it. -/
theorem IsValidVolume_claim_cex :
    ¬ (∀ (metadataSyncer : MetadataSyncInformer String) (volume : Volume) (pod : Pod)
        (claimSource : PersistentVolumeClaimVolumeSource)
        (pvc : PersistentVolumeClaim) (pv : PersistentVolume),
        volume.persistentVolumeClaim = some claimSource →
        metadataSyncer.pvcGet pod.objectMeta.ns claimSource.claimName = .ok pvc →
        metadataSyncer.pvGet pvc.spec.volumeName = .ok pv →
        (IsValidVolume volume pod metadataSyncer = (true, some pv, some pvc) ↔
          ((csiDriverMatches pv = true ∨
            (pv.spec.vsphereVolume.isSome = true ∧ isValidvSphereVolume pv.objectMeta = true)) ∧
           (pv.spec.vsphereVolume.isSome = true →
             metadataSyncer.isFSSEnabled CSIMigration = true)))) := by
  intro h
  have h2 := (h msNeither volumeC6 podC6 claimSourceC6 pvcC6 pvNeither rfl rfl rfl).mp
    (by decide)
  exact absurd h2 (by decide)

/-- Claim C6 (amended): for every pod volume whose PVC and PV lookups
succeed, `IsValidVolume` returns true with the PV and PVC iff NOT ((the PV
lacks a CSI source with this plugin's driver name) AND the migration
feature is enabled AND the PV has no legacy vSphere source) AND NOT (the
migration feature is disabled AND the PV has a legacy vSphere source); in
particular, whenever migration is disabled and the PV has a legacy vSphere
volume source, the volume is rejected. -/
theorem IsValidVolume_actual_spec {E : Type} (metadataSyncer : MetadataSyncInformer E)
    (volume : Volume) (pod : Pod) (claimSource : PersistentVolumeClaimVolumeSource)
    (pvc : PersistentVolumeClaim) (pv : PersistentVolume)
    (hclaim : volume.persistentVolumeClaim = some claimSource)
    (hpvc : metadataSyncer.pvcGet pod.objectMeta.ns claimSource.claimName = .ok pvc)
    (hpv : metadataSyncer.pvGet pvc.spec.volumeName = .ok pv) :
    (IsValidVolume volume pod metadataSyncer = (true, some pv, some pvc) ↔
      (¬ (csiDriverMatches pv = false ∧ metadataSyncer.isFSSEnabled CSIMigration = true ∧
          pv.spec.vsphereVolume = none) ∧
       ¬ (metadataSyncer.isFSSEnabled CSIMigration = false ∧
          pv.spec.vsphereVolume.isSome = true)))
    ∧ (metadataSyncer.isFSSEnabled CSIMigration = false → pv.spec.vsphereVolume.isSome = true →
        IsValidVolume volume pod metadataSyncer = (false, none, none)) := by
  have hred : IsValidVolume volume pod metadataSyncer =
      (if !csiDriverMatches pv &&
          (metadataSyncer.isFSSEnabled CSIMigration && pv.spec.vsphereVolume.isNone) then
        (false, none, none)
      else if !metadataSyncer.isFSSEnabled CSIMigration && pv.spec.vsphereVolume.isSome then
        (false, none, none)
      else (true, some pv, some pvc)) := by
    unfold IsValidVolume
    simp only [hclaim, hpvc, hpv]
  rw [hred]
  constructor
  · cases hcsi : csiDriverMatches pv <;>
      cases hfss : metadataSyncer.isFSSEnabled CSIMigration <;>
      cases hvsv : pv.spec.vsphereVolume <;>
      simp [hcsi, hfss, hvsv]
  · intro h1 h2
    simp [h1, h2]

/-- Witness for claim C6: with the migration feature disabled and a bound
legacy vSphere PV, the pod volume is rejected. -/
theorem IsValidVolume_actual_spec_witness :
    IsValidVolume volumeC6 podC6 msLegacyNoMigration = (false, none, none) :=
  (IsValidVolume_actual_spec msLegacyNoMigration volumeC6 podC6 claimSourceC6 pvcC6
    pvLegacyBound rfl rfl rfl).2 rfl rfl

/-- Overwriting an existing key makes the keyed lookup find the new
value. -/
theorem find?_overwrite :
    ∀ (m : List (String × String)) (k v : String),
      m.any (fun q => q.1 == k) = true →
      (m.map (fun q => if q.1 == k then (k, v) else q)).find? (fun q => q.1 == k) =
        some (k, v) := by
  intro m k v
  induction m with
  | nil => intro h; simp at h
  | cons entry ps ih =>
    intro h
    by_cases hp : (entry.1 == k) = true
    · rw [List.map_cons, if_pos hp,
        @List.find?_cons_of_pos _ (fun q => q.1 == k) (k, v) _ (by simp)]
    · have h' : ps.any (fun q => q.1 == k) = true := by
        simp only [List.any_cons, Bool.or_eq_true] at h
        exact h.resolve_left hp
      rw [List.map_cons, if_neg hp,
        @List.find?_cons_of_neg _ (fun q => q.1 == k) entry _ hp]
      exact ih h'

/-- Appending a fresh binding makes the keyed lookup find it. -/
theorem find?_append_new :
    ∀ (m : List (String × String)) (k v : String),
      m.any (fun q => q.1 == k) = false →
      (m ++ [(k, v)]).find? (fun q => q.1 == k) = some (k, v) := by
  intro m k v
  induction m with
  | nil =>
    intro _
    rw [List.nil_append,
      @List.find?_cons_of_pos _ (fun q => q.1 == k) (k, v) _ (by simp)]
  | cons entry ps ih =>
    intro h
    simp only [List.any_cons, Bool.or_eq_false_iff] at h
    rw [List.cons_append,
      @List.find?_cons_of_neg _ (fun q => q.1 == k) entry _ (by simp [h.1]), ih h.2]

/-- Go-map insert followed by a lookup of the same key yields the inserted
value. -/
theorem lookupAnn_mapInsert (m : List (String × String)) (k v : String) :
    lookupAnn (mapInsert m k v) k = some v := by
  unfold lookupAnn mapInsert
  by_cases hany : m.any (fun q => q.1 == k) = true
  · rw [if_pos hany, find?_overwrite m k v hany]
  · have hfalse : m.any (fun q => q.1 == k) = false := by
      cases hb : m.any (fun q => q.1 == k)
      · rfl
      · exact absurd hb hany
    rw [if_neg hany, find?_append_new m k v hfalse]

/-- Step of the inline-volume fold with the migration feature off is the
identity. -/
theorem inlineVolumeStep_off {E : Type} (vmsGet : MigrationVolumeSpec → Except E String)
    (inl : List (String × String)) (volume : Volume) :
    inlineVolumeStep vmsGet false inl volume = inl := by
  unfold inlineVolumeStep
  cases volume.vsphereVolume <;> simp

/-- Fold of the off-step over any volume list is the identity. -/
theorem foldl_inlineVolumeStep_off {E : Type}
    (vmsGet : MigrationVolumeSpec → Except E String) :
    ∀ (volumes : List Volume) (inl : List (String × String)),
      volumes.foldl (inlineVolumeStep vmsGet false) inl = inl := by
  intro volumes
  induction volumes with
  | nil => intro inl; rfl
  | cons v vs ih =>
    intro inl
    rw [List.foldl_cons, inlineVolumeStep_off]
    exact ih inl

/-- Fold of the off-step over every volume of every pod is the identity. -/
theorem foldl_pods_off {E : Type} (vmsGet : MigrationVolumeSpec → Except E String) :
    ∀ (pods : List Pod) (inl : List (String × String)),
      pods.foldl
        (fun inl pod => pod.volumes.foldl (inlineVolumeStep vmsGet false) inl) inl = inl := by
  intro pods
  induction pods with
  | nil => intro inl; rfl
  | cons p ps ih =>
    intro inl
    rw [List.foldl_cons, foldl_inlineVolumeStep_off]
    exact ih inl

/-- Claim C9: `fullSyncGetInlineMigratedVolumesInfo` propagates only a
pod-lister failure as an error and otherwise always returns a map; with the
migration feature off the returned map is empty; with the feature on, a
reference whose resolution fails is skipped (the map is unchanged by that
reference, the pass continues), a reference whose resolution succeeds maps
the canonical id to the original legacy path, and a lookup of an inserted
id yields that path. -/
theorem fullSyncGetInlineMigratedVolumesInfo_spec {E : Type}
    (metadataSyncer : MetadataSyncInformer E)
    (vmsGet : MigrationVolumeSpec → Except E String) :
    (∀ e, metadataSyncer.podList = .error e →
        ∀ migrationFeatureState,
          fullSyncGetInlineMigratedVolumesInfo metadataSyncer vmsGet migrationFeatureState =
            .error e)
    ∧ (∀ allPods, metadataSyncer.podList = .ok allPods →
        ∀ migrationFeatureState, ∃ m,
          fullSyncGetInlineMigratedVolumesInfo metadataSyncer vmsGet migrationFeatureState =
            .ok m)
    ∧ (∀ allPods, metadataSyncer.podList = .ok allPods →
        fullSyncGetInlineMigratedVolumesInfo metadataSyncer vmsGet false = .ok [])
    ∧ (∀ inl volume vsphereSource e, volume.vsphereVolume = some vsphereSource →
        vmsGet ⟨vsphereSource.volumePath, vsphereSource.storagePolicyName⟩ = .error e →
        inlineVolumeStep vmsGet true inl volume = inl)
    ∧ (∀ inl volume vsphereSource volumeHandle, volume.vsphereVolume = some vsphereSource →
        vmsGet ⟨vsphereSource.volumePath, vsphereSource.storagePolicyName⟩ = .ok volumeHandle →
        inlineVolumeStep vmsGet true inl volume =
          mapInsert inl volumeHandle vsphereSource.volumePath)
    ∧ (∀ m k v, lookupAnn (mapInsert m k v) k = some v) := by
  refine ⟨?_, ?_, ?_, ?_, ?_, fun m k v => lookupAnn_mapInsert m k v⟩
  · intro e he migrationFeatureState
    unfold fullSyncGetInlineMigratedVolumesInfo
    rw [he]
  · intro allPods hok migrationFeatureState
    unfold fullSyncGetInlineMigratedVolumesInfo
    rw [hok]
    exact ⟨_, rfl⟩
  · intro allPods hok
    unfold fullSyncGetInlineMigratedVolumesInfo
    rw [hok]
    exact congrArg Except.ok (foldl_pods_off vmsGet allPods [])
  · intro inl volume vsphereSource e hv he
    unfold inlineVolumeStep
    rw [hv]
    simp [he]
  · intro inl volume vsphereSource volumeHandle hv hh
    unfold inlineVolumeStep
    rw [hv]
    simp [hh]

/-- Witness for claim C9: the concrete pod with one resolvable and one
unresolvable inline reference — the feature-off run returns the empty map,
the failing reference leaves the map unchanged, and the good reference
inserts its canonical id mapped to its legacy path. -/
theorem fullSyncGetInlineMigratedVolumesInfo_witness :
    fullSyncGetInlineMigratedVolumesInfo msInline vmsResolver false = .ok [] ∧
    inlineVolumeStep vmsResolver true [] volInlineBad = [] ∧
    inlineVolumeStep vmsResolver true [] volInlineGood = [("cns-id-good", "[ds] good.vmdk")] :=
  ⟨(fullSyncGetInlineMigratedVolumesInfo_spec msInline vmsResolver).2.2.1 _ rfl,
   (fullSyncGetInlineMigratedVolumesInfo_spec msInline vmsResolver).2.2.2.1 [] volInlineBad
     ⟨"[ds] bad.vmdk", "gold"⟩ "resolution failed" rfl (by decide),
   ((fullSyncGetInlineMigratedVolumesInfo_spec msInline vmsResolver).2.2.2.2.1 [] volInlineGood
     ⟨"[ds] good.vmdk", "gold"⟩ "cns-id-good" rfl (by decide)).trans (by decide)⟩

end VSphereCSI
